import Mathlib

/-!
Verification model of the IoT dashboard's presence-detection and
message-classification core (`WebSocketMessages.js` and
`hooks/useDevicePingStatus.js`).

JSON values are embedded as the inductive `JValue`; a raw inbound frame is
an `Option JValue` (`none` models a frame whose text does not parse as
JSON, in which case `JSON.parse` throws and the handler's `catch` discards
the frame). `serialize` models `JSON.stringify` on parsed values, which the
classifier uses as the canonical form for its one-slot duplicate check.
-/

inductive JValue where
  | null
  | bool (b : Bool)
  | num (n : Int)
  | str (s : String)
  | arr (elems : List JValue)
  | obj (fields : List (String × JValue))

/-- Escaping of one character inside a JSON string literal, as
`JSON.stringify` does for the quote and backslash characters. -/
def escapeChar (c : Char) : String :=
  if c = '\\' then "\\\\"
  else if c = '"' then "\\\""
  else String.singleton c

/-- Model of `JSON.stringify` applied to a string: double quotes around the
escaped characters. -/
def jstrQuote (s : String) : String :=
  "\"" ++ String.join (s.data.map escapeChar) ++ "\""

mutual

/-- Model of `JSON.stringify` on a parsed JSON value (numbers are embedded
as integers). This is the canonical serialized form the classifier compares
for deduplication. -/
def serialize : JValue → String
  | .null => "null"
  | .bool true => "true"
  | .bool false => "false"
  | .num n => toString n
  | .str s => jstrQuote s
  | .arr xs => "[" ++ serializeItems xs ++ "]"
  | .obj fs => "\x7b" ++ serializeProps fs ++ "\x7d"

/-- Comma-separated serialization of array elements. -/
def serializeItems : List JValue → String
  | [] => ""
  | [v] => serialize v
  | v :: vs => serialize v ++ "," ++ serializeItems vs

/-- Comma-separated serialization of object properties. -/
def serializeProps : List (String × JValue) → String
  | [] => ""
  | [(k, v)] => jstrQuote k ++ ":" ++ serialize v
  | (k, v) :: fs => jstrQuote k ++ ":" ++ serialize v ++ "," ++ serializeProps fs

end

/-- Property lookup on a JS object's field list; with duplicate keys the
last occurrence wins, as for objects built by `JSON.parse`. -/
def getField (fs : List (String × JValue)) (k : String) : Option JValue :=
  fs.foldl (fun acc p => if p.1 = k then some p.2 else acc) none

/-- Model of JS property access `data[k]`: fields of an object, `undefined`
(here `none`) on every non-object. -/
def jget (data : JValue) (k : String) : Option JValue :=
  match data with
  | .obj fs => getField fs k
  | _ => none

/-- Property access through the frame's parse result, as `data?.topic`
does (optional chaining: `undefined` on a missing or non-object base). -/
def jgetOpt (frame : Option JValue) (k : String) : Option JValue :=
  match frame with
  | none => none
  | some data => jget data k

/-- JS truthiness of a JSON value. -/
def truthy : JValue → Bool
  | .null => false
  | .bool b => b
  | .num n => n != 0
  | .str s => s != ""
  | .arr _ => true
  | .obj _ => true

/-- JS truthiness of a possibly-`undefined` value (`undefined` is falsy). -/
def truthyOpt : Option JValue → Bool
  | none => false
  | some v => truthy v

mutual

/-- Model of JS `String(v)` on a JSON value. -/
def jsToStringV : JValue → String
  | .null => "null"
  | .bool true => "true"
  | .bool false => "false"
  | .num n => toString n
  | .str s => s
  | .arr xs => jsJoinItems xs
  | .obj _ => "[object Object]"

/-- Model of `Array.prototype.join(",")` used by `String(array)`:
elements stringified recursively, `null` becoming the empty string. -/
def jsJoinItems : List JValue → String
  | [] => ""
  | [.null] => ""
  | [v] => jsToStringV v
  | .null :: vs => "," ++ jsJoinItems vs
  | v :: vs => jsToStringV v ++ "," ++ jsJoinItems vs

end

/-- Model of JS `String(p)` where `p` may also be `undefined`. -/
def jsToString : Option JValue → String
  | none => "undefined"
  | some v => jsToStringV v

/-!
Message classifier and deduplicator: the `socket.onmessage` handler of
`WebSocketMessages.js`. Component state: `lastMessageRef.current`
(initially `null`) and the `messages` array (initially empty).
-/

structure LogState where
  lastMessage : Option String
  messages : List JValue

def initLog : LogState := { lastMessage := none, messages := [] }

/-- Shape check of the handler: `data.topic && data.payload !== undefined`.
Truthiness is required of `topic`; mere presence of `payload`. -/
def accepts (data : JValue) : Bool :=
  truthyOpt (jget data "topic") && (jget data "payload").isSome

/-- Model of the `socket.onmessage` handler. A `none` frame is a frame
whose text `JSON.parse` rejects: the `catch` discards it. For a frame
parsing to JSON `null`, the source's `data.topic` access throws a
`TypeError` which the same `catch` swallows — the outcome (no state
change) is the one this model gives, since `jget .null _ = none` makes
`accepts` false. An accepted frame is appended unless its serialized form
equals the one-slot memory `lastMessage`. -/
def onmessage (s : LogState) (frame : Option JValue) : LogState :=
  match frame with
  | none => s
  | some data =>
    if accepts data then
      let msgString := serialize data
      if s.lastMessage ≠ some msgString then
        { lastMessage := some msgString, messages := s.messages ++ [data] }
      else s
    else s

/-- Run the classifier over a frame sequence from a given state. -/
def runLogFrom (s : LogState) (frames : List (Option JValue)) : LogState :=
  frames.foldl onmessage s

/-- Run the classifier over a frame sequence from the initial state. -/
def runLog (frames : List (Option JValue)) : LogState :=
  runLogFrom initLog frames

/-- Frames the classifier discards: unparsable text, or a parsed value
failing the shape check. -/
def rejectedFrame (f : Option JValue) : Bool :=
  match f with
  | none => true
  | some data => !accepts data

/-!
Presence tracker: the state machine of `hooks/useDevicePingStatus.js`.

Timers are modelled explicitly: `pending` is the multiset of armed,
uncancelled timeouts as `(id, deadline)` pairs, `timerRef` is the hook's
`timerRef.current` (the id last stored there; never nulled by the source),
and `nextId` is the id `setTimeout` will hand out next (browser timer ids
start at 1, so `if (timerRef.current)` truthiness coincides with the
`Option` match). A timeout that has been cleared is absent from `pending`
and can never fire; firing one consumes it.

The source's `ask` is `async`: its synchronous prefix (`setStatus`,
`clearTimeout`) runs when the check is requested, while the timeout is
armed only in the continuation after `await fetch(...)` settles (the
arming runs whether the fetch resolved or rejected). The two halves are
modelled separately as `askStart` and `askArm`; `ask` is their
uninterleaved composition, the execution in which no other event runs
during the request window.
-/

inductive PStatus where
  | checking
  | online
  | offline
deriving DecidableEq

structure Tracker where
  status : PStatus
  timerRef : Option Nat
  pending : List (Nat × Nat)
  nextId : Nat
deriving DecidableEq

def initTracker : Tracker :=
  { status := .checking, timerRef := none, pending := [], nextId := 1 }

/-- Model of `if (timerRef.current) clearTimeout(timerRef.current)`: the
referenced timeout (if any) is removed from the armed set; the ref itself
is not nulled, exactly as in the source. -/
def clearTimer (s : Tracker) : Tracker :=
  match s.timerRef with
  | none => s
  | some id => { s with pending := s.pending.filter (fun p => p.1 != id) }

/-- Synchronous prefix of `ask`: `setStatus("checking")` then the
conditional `clearTimeout`. -/
def askStart (s : Tracker) : Tracker :=
  clearTimer { s with status := .checking }

/-- Continuation of `ask` after the `fetch` settles at time `t`:
`timerRef.current = setTimeout(() => setStatus("offline"), 4000)`. -/
def askArm (t : Nat) (s : Tracker) : Tracker :=
  { s with timerRef := some s.nextId,
           pending := s.pending ++ [(s.nextId, t + 4000)],
           nextId := s.nextId + 1 }

/-- The `ask` call run without interleaving: clear-then-arm in one step. -/
def ask (t : Nat) (s : Tracker) : Tracker :=
  askArm t (askStart s)

/-- Expiry of timeout `id`: if it is still armed it runs
`setStatus("offline")` and is consumed; a cleared (or already fired)
timeout does nothing. -/
def fire (id : Nat) (s : Tracker) : Tracker :=
  if s.pending.any (fun p => p.1 == id) then
    { s with status := .offline, pending := s.pending.filter (fun p => p.1 != id) }
  else s

/-- Model of the JS strict comparison `topic === "<literal>"`: true exactly
when the value is that string. -/
def topicIs (topic : Option JValue) (t : String) : Bool :=
  match topic with
  | some (.str u) => u == t
  | _ => false

/-- Topic the hook matches for answers to the liveness ping. -/
def answerTopic : String := "mod_1x1/d_000/answerInfo"

/-- Topic the hook matches for unsolicited online/offline announcements. -/
def willTopic : String := "mod_1x1/d_000/will"

/-- Topic the hook matches for the reserved last-will offline signal. -/
def statusTopic : String := "mod_1x1/d_000/status"

/-- Whitespace removed by JS `String.prototype.trim` (the ASCII range,
which covers every payload the protocol uses). -/
def jsWhitespaceChar (c : Char) : Bool :=
  c == ' ' || c == '\t' || c == '\n' || c == '\r' || c == '\x0b' || c == '\x0c'

/-- Model of `p.trim()`: leading and trailing whitespace removed. -/
def jsTrim (s : String) : String :=
  String.mk (((s.data.dropWhile jsWhitespaceChar).reverse.dropWhile jsWhitespaceChar).reverse)

/-- Case-folding of one character by `toLowerCase` (ASCII letters). -/
def lowerChar (c : Char) : Char :=
  if 65 ≤ c.toNat ∧ c.toNat ≤ 90 then Char.ofNat (c.toNat + 32) else c

/-- Model of `p.toLowerCase()` over the characters. -/
def jsLower (s : String) : String :=
  String.mk (s.data.map lowerChar)

/-- The normalization the hook applies to a payload before comparing:
`String(p).trim().toLowerCase()`. -/
def normalizePayload (p : Option JValue) : String :=
  jsLower (jsTrim (jsToString p))

/-- Normalized affirmative check: `String(p).trim().toLowerCase() === "hi!"`. -/
def isHi (p : Option JValue) : Bool :=
  normalizePayload p == "hi!"

/-- Normalized negative check: the trimmed, case-folded payload is
`"byebye"` or `"offline"`. -/
def isBye (p : Option JValue) : Bool :=
  let v := normalizePayload p
  v == "byebye" || v == "offline"

/-- `setStatus("online")` followed by the conditional `clearTimeout`. -/
def setOnline (s : Tracker) : Tracker :=
  clearTimer { s with status := .online }

/-- `setStatus("offline")` followed by the conditional `clearTimeout`. -/
def setOffline (s : Tracker) : Tracker :=
  clearTimer { s with status := .offline }

/-- Model of the hook's `handleMessage` listener. The source tests, in
order: the answer topic with an affirmative payload; the will topic with
an affirmative then a negative payload; the status topic with a negative
payload. (In the source a will-topic frame matching neither payload falls
through to the status-topic test, which cannot match it since the two
topic strings differ; the ordered conditions below are therefore
equivalent.) A frame that is unparsable (`none`) makes `JSON.parse` throw
and is swallowed by the `catch` with no state change. -/
def handleMessage (frame : Option JValue) (s : Tracker) : Tracker :=
  match frame with
  | none => s
  | some data =>
    let topic := jget data "topic"
    let payload := jget data "payload"
    if topicIs topic answerTopic && isHi payload then setOnline s
    else if topicIs topic willTopic && isHi payload then setOnline s
    else if topicIs topic willTopic && isBye payload then setOffline s
    else if topicIs topic statusTopic && isBye payload then setOffline s
    else s

/-- Body of the liveness request the hook POSTs to the external API. -/
structure AskRequest where
  deviceId : String
  path : String
  value : String
deriving DecidableEq

/-- Model of the `fetch` body built in `ask`:
`JSON.stringify({ deviceId, path: "askInfo", value: "hi" })`. -/
def askRequest (deviceId : String) : AskRequest :=
  { deviceId := deviceId, path := "askInfo", value := "hi" }

/-- Serialized events one at a time: the event sources of the tracker in
the spec's cooperative model, with each liveness check uninterleaved. -/
inductive TAct where
  | ask (t : Nat)
  | fire (id : Nat)
  | msg (frame : Option JValue)

def tstep (s : Tracker) (a : TAct) : Tracker :=
  match a with
  | .ask t => ask t s
  | .fire id => fire id s
  | .msg frame => handleMessage frame s

/-- Run the tracker over a serialized event sequence from its creation. -/
def trun (acts : List TAct) : Tracker :=
  acts.foldl tstep initTracker

/-- Convenience: the inbound event `{ topic, payload }` as a frame. -/
def mkEvent (topic : String) (payload : JValue) : Option JValue :=
  some (.obj [("topic", .str topic), ("payload", payload)])

/-- The affirmative answer frame to the liveness ping. -/
def answerHiFrame : Option JValue := mkEvent answerTopic (.str "hi!")

/-!
Channel manager: the connection lifecycle of `WebSocketMessages.js`.

`connect` (a `useCallback` with empty deps, created once) builds a socket,
installs its handlers, arms `socket.pingInterval = setInterval(..., 60000)`
and stores the socket via `setWs`. The component's single `useEffect`
(deps `[connect]`, which never changes, so the effect runs once on mount)
calls `connect()` and registers the cleanup `() => { if (ws) ws.close() }`
— a closure over the `ws` state of the render in which the effect ran,
which is still the initial `null`. `socket.onclose` clears that socket's
ping interval and schedules `setTimeout(() => connect(), 3000)`; nothing
conditions this on the component still being mounted.

Sockets are numbered in creation order; `pendingReconnects` lists the
delays of scheduled, not-yet-fired reconnect timeouts.
-/

structure Socket where
  sockOpen : Bool
  closed : Bool
  pingArmed : Bool
  pingPeriod : Nat
deriving DecidableEq

structure CM where
  sockets : List Socket
  wsState : Option Nat
  cleanupWs : Option Nat
  pendingReconnects : List Nat
  tornDown : Bool
deriving DecidableEq

def initCM : CM :=
  { sockets := [], wsState := none, cleanupWs := none,
    pendingReconnects := [], tornDown := false }

/-- Model of `connect()`: a fresh socket with its keep-alive interval
armed at a 60000 ms period, stored into the `ws` state. -/
def connect (s : CM) : CM :=
  { s with
    sockets := s.sockets ++ [{ sockOpen := false, closed := false,
                               pingArmed := true, pingPeriod := 60000 }],
    wsState := some s.sockets.length }

/-- Model of the mount effect: the cleanup captures the render's `ws`
(still the initial `null`), then `connect()` runs. -/
def mount (s : CM) : CM :=
  connect { s with cleanupWs := s.wsState }

/-- The socket's `open` event. -/
def openSocket (i : Nat) (s : CM) : CM :=
  match s.sockets.get? i with
  | some sk => { s with sockets := s.sockets.set i { sk with sockOpen := true } }
  | none => s

/-- Model of socket `i` closing (cleanly or after an error forced
`socket.close()`): `onclose` clears that socket's ping interval and
schedules exactly one reconnect with a fixed 3000 ms delay. -/
def socketClose (i : Nat) (s : CM) : CM :=
  match s.sockets.get? i with
  | some sk =>
    if sk.closed then s
    else { s with
           sockets := s.sockets.set i
             { sk with sockOpen := false, closed := true, pingArmed := false },
           pendingReconnects := s.pendingReconnects ++ [3000] }
  | none => s

/-- A scheduled reconnect timeout fires: `connect()` runs again. -/
def reconnectFire (s : CM) : CM :=
  match s.pendingReconnects with
  | [] => s
  | _ :: rest => connect { s with pendingReconnects := rest }

/-- Model of unmount: React runs the registered cleanup, whose captured
`ws` is `cleanupWs`; `ws.close()` (when the capture is non-null) feeds the
ordinary close path. -/
def teardown (s : CM) : CM :=
  let s1 := { s with tornDown := true }
  match s1.cleanupWs with
  | some i => socketClose i s1
  | none => s1

/-!
Helper lemmas about the classifier.
-/

theorem onmessage_none (s : LogState) : onmessage s none = s := rfl

theorem onmessage_reject (s : LogState) (d : JValue) (h : accepts d = false) :
    onmessage s (some d) = s := by
  simp [onmessage, h]

theorem onmessage_rejected_frame (s : LogState) (f : Option JValue)
    (h : rejectedFrame f = true) : onmessage s f = s := by
  cases f with
  | none => rfl
  | some d =>
    have hacc : accepts d = false := by
      simpa [rejectedFrame] using h
    exact onmessage_reject s d hacc

theorem onmessage_accept (s : LogState) (d : JValue) (h : accepts d = true)
    (hfresh : s.lastMessage ≠ some (serialize d)) :
    onmessage s (some d)
      = { lastMessage := some (serialize d), messages := s.messages ++ [d] } := by
  simp [onmessage, h, hfresh]

theorem onmessage_dup (s : LogState) (d : JValue) (h : accepts d = true)
    (hdup : s.lastMessage = some (serialize d)) :
    onmessage s (some d) = s := by
  simp [onmessage, h, hdup]

theorem runLogFrom_append (s : LogState) (xs ys : List (Option JValue)) :
    runLogFrom s (xs ++ ys) = runLogFrom (runLogFrom s xs) ys := by
  simp [runLogFrom, List.foldl_append]

theorem runLogFrom_cons (s : LogState) (f : Option JValue)
    (fs : List (Option JValue)) :
    runLogFrom s (f :: fs) = runLogFrom (onmessage s f) fs := rfl

theorem runLogFrom_rejected (junk : List (Option JValue))
    (h : ∀ f ∈ junk, rejectedFrame f = true) (s : LogState) :
    runLogFrom s junk = s := by
  induction junk generalizing s with
  | nil => rfl
  | cons f fs ih =>
    rw [runLogFrom_cons, onmessage_rejected_frame s f (h f (by simp)),
      ih (fun g hg => h g (by simp [hg]))]

theorem runLog_append (xs ys : List (Option JValue)) :
    runLog (xs ++ ys) = runLogFrom (runLog xs) ys := by
  rw [runLog, runLog, runLogFrom_append]

theorem onmessage_slot (s : LogState) (f : Option JValue)
    (h : s.lastMessage = s.messages.getLast?.map serialize) :
    (onmessage s f).lastMessage = (onmessage s f).messages.getLast?.map serialize := by
  cases f with
  | none => simpa [onmessage]
  | some d =>
    by_cases hacc : accepts d
    · by_cases hdup : s.lastMessage = some (serialize d)
      · rw [onmessage_dup s d hacc hdup]; exact h
      · rw [onmessage_accept s d hacc hdup]
        simp
    · rw [onmessage_reject s d (by simpa using hacc)]; exact h

theorem runLogFrom_slot (fs : List (Option JValue)) (s : LogState)
    (h : s.lastMessage = s.messages.getLast?.map serialize) :
    (runLogFrom s fs).lastMessage
      = (runLogFrom s fs).messages.getLast?.map serialize := by
  induction fs generalizing s with
  | nil => exact h
  | cons f fs ih => exact ih (onmessage s f) (onmessage_slot s f h)

/-- Claim C1: the deduplicator has a one-slot memory holding only the
serialization of the single most-recently-accepted event (first conjunct),
so of two back-to-back identical accepted frames only the first is
appended, while a third identical frame arriving after a different
accepted frame is appended again (second conjunct: processing
`a, a, b, a` after any prefix appends exactly `a, b, a`). -/
theorem dedup_consecutive_only (pre : List (Option JValue)) (a b : JValue)
    (ha : accepts a = true) (hb : accepts b = true)
    (hab : serialize a ≠ serialize b)
    (hfresh : (runLog pre).lastMessage ≠ some (serialize a)) :
    (∀ frames, (runLog frames).lastMessage
        = ((runLog frames).messages.getLast?).map serialize)
    ∧ (runLog (pre ++ [some a, some a, some b, some a])).messages
        = (runLog pre).messages ++ [a, b, a] := by
  constructor
  · intro frames
    exact runLogFrom_slot frames initLog rfl
  · rw [runLog_append]
    set s0 := runLog pre with hs0
    rw [runLogFrom_cons, onmessage_accept s0 a ha hfresh]
    set s1 : LogState := { lastMessage := some (serialize a),
                           messages := s0.messages ++ [a] } with hs1
    rw [runLogFrom_cons, onmessage_dup s1 a ha rfl]
    have h1b : s1.lastMessage ≠ some (serialize b) := by
      simp [hs1]
      intro h
      exact hab h
    rw [runLogFrom_cons, onmessage_accept s1 b hb h1b]
    set s2 : LogState := { lastMessage := some (serialize b),
                           messages := s1.messages ++ [b] } with hs2
    have h2a : s2.lastMessage ≠ some (serialize a) := by
      simp [hs2]
      intro h
      exact hab h.symm
    rw [runLogFrom_cons, onmessage_accept s2 a ha h2a]
    simp [runLogFrom, hs2, hs1]

/-- Witness for C1 at a concrete input: an empty prefix and the two
distinct accepted events `{topic:"t",payload:1}` and `{topic:"t",payload:2}`. -/
theorem dedup_consecutive_only_witness :
    (runLog ([] ++ [mkEvent "t" (JValue.num 1), mkEvent "t" (JValue.num 1),
                    mkEvent "t" (JValue.num 2), mkEvent "t" (JValue.num 1)])).messages
      = (runLog []).messages
          ++ [JValue.obj [("topic", JValue.str "t"), ("payload", JValue.num 1)],
              JValue.obj [("topic", JValue.str "t"), ("payload", JValue.num 2)],
              JValue.obj [("topic", JValue.str "t"), ("payload", JValue.num 1)]] :=
  (dedup_consecutive_only [] _ _ (by decide) (by decide) (by decide) (by decide)).2

/-- Claim C2, counterexample to the claim as stated: the frame parsing to
`{"topic":"","payload":1}` has both fields present (first two conjuncts),
yet the classifier appends nothing (third conjunct), because the source
tests `data.topic` for truthiness and the empty string is falsy; moreover
a frame with both fields present that repeats the previous accepted frame
is also not appended (fourth conjunct), against the claim's "if and only
if". -/
theorem classifier_presence_counterexample :
    ((jget (JValue.obj [("topic", JValue.str ""), ("payload", JValue.num 1)])
        "topic").isSome = true
      ∧ (jget (JValue.obj [("topic", JValue.str ""), ("payload", JValue.num 1)])
          "payload").isSome = true
      ∧ (onmessage initLog
          (some (JValue.obj [("topic", JValue.str ""), ("payload", JValue.num 1)]))).messages
          = [])
    ∧ (runLog [mkEvent "t" (JValue.num 1), mkEvent "t" (JValue.num 1)]).messages.length
        = 1 := by
  exact ⟨⟨rfl, rfl, rfl⟩, rfl⟩

/-- Claim C2 as amended: a decoded event is appended to the MessageLog
exactly when the frame parses as JSON with a present-and-truthy `topic`
(an empty-string topic is discarded), a present `payload` (any value other
than absent, so falsy payloads such as `0` or `false` pass), and a
serialized form different from the one-slot memory; every other frame —
a frame that passes the shape check but repeats the one-slot memory (a
consecutive duplicate, second conjunct), a parsed frame with a missing or
falsy `topic` or a missing `payload` (third conjunct), or unparsable text
(fourth conjunct) — leaves the whole state unchanged (the model is a
total function: the handler's `catch` confines every parse exception). -/
theorem classifier_accept_amended (s : LogState) (frame : Option JValue) :
    (∀ data, frame = some data → truthyOpt (jget data "topic") = true →
       (jget data "payload").isSome = true →
       s.lastMessage ≠ some (serialize data) →
       onmessage s frame = { lastMessage := some (serialize data),
                             messages := s.messages ++ [data] })
    ∧ (∀ data, frame = some data → truthyOpt (jget data "topic") = true →
        (jget data "payload").isSome = true →
        s.lastMessage = some (serialize data) →
        onmessage s frame = s)
    ∧ (∀ data, frame = some data →
        truthyOpt (jget data "topic") = false ∨ (jget data "payload").isSome = false →
        onmessage s frame = s)
    ∧ (frame = none → onmessage s frame = s) := by
  refine ⟨?_, ?_, ?_, ?_⟩
  · intro data hf h1 h2 hfresh
    subst hf
    exact onmessage_accept s data (by simp [accepts, h1, h2]) hfresh
  · intro data hf h1 h2 hdup
    subst hf
    exact onmessage_dup s data (by simp [accepts, h1, h2]) hdup
  · intro data hf h12
    subst hf
    refine onmessage_reject s data ?_
    rcases h12 with h1 | h2
    · simp [accepts, h1]
    · simp [accepts, h2]
  · intro hf
    subst hf
    rfl

/-- Witness for the amended C2 at concrete inputs: the frame
`{"topic":"t","payload":0}` (falsy-but-present payload) is appended to the
initial state, and the same frame arriving again — now equal to the
one-slot memory — leaves the resulting state unchanged. -/
theorem classifier_accept_amended_witness :
    (onmessage initLog (mkEvent "t" (JValue.num 0))
      = { lastMessage := some (serialize
            (JValue.obj [("topic", JValue.str "t"), ("payload", JValue.num 0)])),
          messages := initLog.messages
            ++ [JValue.obj [("topic", JValue.str "t"), ("payload", JValue.num 0)]] })
    ∧ (onmessage
        { lastMessage := some (serialize
            (JValue.obj [("topic", JValue.str "t"), ("payload", JValue.num 0)])),
          messages := [JValue.obj [("topic", JValue.str "t"), ("payload", JValue.num 0)]] }
        (mkEvent "t" (JValue.num 0))
      = { lastMessage := some (serialize
            (JValue.obj [("topic", JValue.str "t"), ("payload", JValue.num 0)])),
          messages := [JValue.obj [("topic", JValue.str "t"), ("payload", JValue.num 0)]] }) :=
  ⟨(classifier_accept_amended initLog (mkEvent "t" (JValue.num 0))).1
      _ rfl (by decide) (by decide) (by decide),
   (classifier_accept_amended
      { lastMessage := some (serialize
          (JValue.obj [("topic", JValue.str "t"), ("payload", JValue.num 0)])),
        messages := [JValue.obj [("topic", JValue.str "t"), ("payload", JValue.num 0)]] }
      (mkEvent "t" (JValue.num 0))).2.1
      _ rfl (by decide) (by decide) rfl⟩

/-- Claim C10: the one-slot memory and the log move only on acceptance.
Every rejected frame (unparsable, missing or falsy `topic`, missing
`payload`) leaves the state unchanged (first conjunct); a consecutive
duplicate also leaves both unchanged (second conjunct); hence a frame
identical to the last accepted event is still suppressed even when a batch
of rejected frames arrived in between (third conjunct). -/
theorem discard_frame_effect (s : LogState) (junk : List (Option JValue))
    (a : JValue)
    (hjunk : ∀ f ∈ junk, rejectedFrame f = true)
    (ha : accepts a = true) :
    (∀ f, rejectedFrame f = true → onmessage s f = s)
    ∧ (∀ data, accepts data = true → s.lastMessage = some (serialize data) →
        onmessage s (some data) = s)
    ∧ runLogFrom s (some a :: (junk ++ [some a])) = onmessage s (some a) := by
  refine ⟨fun f hf => onmessage_rejected_frame s f hf,
          fun data hacc hdup => onmessage_dup s data hacc hdup, ?_⟩
  rw [runLogFrom_cons, runLogFrom_append, runLogFrom_rejected junk hjunk]
  by_cases hdup : s.lastMessage = some (serialize a)
  · rw [onmessage_dup s a ha hdup]
    simp [runLogFrom]
    exact onmessage_dup s a ha hdup
  · rw [onmessage_accept s a ha hdup]
    simp [runLogFrom]
    exact onmessage_dup _ a ha rfl

/-- Witness for C10 at a concrete input: `{topic:"t",payload:1}` followed
by an unparsable frame and a topic-less frame, then the same event again —
the repeat is still suppressed. -/
theorem discard_frame_effect_witness :
    runLogFrom initLog
        (mkEvent "t" (JValue.num 1)
          :: ([none, some (JValue.obj [("payload", JValue.num 2)])]
              ++ [mkEvent "t" (JValue.num 1)]))
      = onmessage initLog (mkEvent "t" (JValue.num 1)) :=
  (discard_frame_effect initLog
      [none, some (JValue.obj [("payload", JValue.num 2)])]
      (JValue.obj [("topic", JValue.str "t"), ("payload", JValue.num 1)])
      (by decide) (by decide)).2.2

/-!
Helper lemmas about the tracker's timers.
-/

theorem clearTimer_none (s : Tracker) (h : s.timerRef = none) :
    clearTimer s = s := by
  simp [clearTimer, h]

theorem clearTimer_some (s : Tracker) (id : Nat) (h : s.timerRef = some id) :
    clearTimer s = { s with pending := s.pending.filter (fun p => p.1 != id) } := by
  simp [clearTimer, h]

/-- When every armed timeout is the one `timerRef` references — the
discipline a lone check maintains — clearing empties the armed set. -/
theorem clearTimer_eq (s : Tracker)
    (h : ∀ p ∈ s.pending, s.timerRef = some p.1) :
    clearTimer s = { s with pending := [] } := by
  cases htr : s.timerRef with
  | none =>
    rw [clearTimer_none s htr]
    have hp : s.pending = [] := by
      cases hp : s.pending with
      | nil => rfl
      | cons p ps =>
        have := h p (by rw [hp]; exact List.mem_cons_self p ps)
        rw [htr] at this
        exact Option.noConfusion this
    cases s
    simp_all
  | some id =>
    rw [clearTimer_some s id htr]
    have hp : s.pending.filter (fun p => p.1 != id) = [] := by
      rw [List.filter_eq_nil_iff]
      intro p hp
      have := h p hp
      rw [htr] at this
      have hpe : p.1 = id := by injection this with h2; exact h2.symm
      simp [hpe]
    rw [hp, htr]

theorem askStart_eq (s : Tracker)
    (h : ∀ p ∈ s.pending, s.timerRef = some p.1) :
    askStart s = { status := .checking, timerRef := s.timerRef,
                   pending := [], nextId := s.nextId } := by
  rw [askStart, clearTimer_eq _ (by simpa using h)]

theorem ask_eq (s : Tracker) (t : Nat)
    (h : ∀ p ∈ s.pending, s.timerRef = some p.1) :
    ask t s = { status := .checking, timerRef := some s.nextId,
                pending := [(s.nextId, t + 4000)], nextId := s.nextId + 1 } := by
  rw [ask, askStart_eq s h]
  rfl

/-- The well-formedness a serialized execution maintains: every armed
timeout is the referenced one, the referenced id is below the allocator,
a nonempty armed set means the status is `checking`, and at most one
timeout is armed. -/
def TrackerInv (s : Tracker) : Prop :=
  (∀ p ∈ s.pending, s.timerRef = some p.1)
  ∧ (∀ id, s.timerRef = some id → id < s.nextId)
  ∧ (s.pending = [] ∨ s.status = .checking)
  ∧ s.pending.length ≤ 1

theorem inv_init : TrackerInv initTracker := by
  refine ⟨?_, ?_, ?_, ?_⟩ <;> simp [initTracker]

theorem inv_ask (s : Tracker) (t : Nat) (h : TrackerInv s) :
    TrackerInv (ask t s) := by
  obtain ⟨h1, h2, h3, h4⟩ := h
  rw [ask_eq s t h1]
  refine ⟨?_, ?_, Or.inr rfl, by simp⟩
  · intro p hp
    simp at hp
    simp [hp]
  · intro id hid
    simp at hid
    simp [hid]

theorem inv_fire (s : Tracker) (id : Nat) (h : TrackerInv s) :
    TrackerInv (fire id s) := by
  obtain ⟨h1, h2, h3, h4⟩ := h
  by_cases hany : s.pending.any (fun p => p.1 == id) = true
  · rw [fire, if_pos hany]
    refine ⟨?_, h2, ?_, ?_⟩
    · intro p hp
      exact h1 p (List.mem_of_mem_filter hp)
    · left
      obtain ⟨q, hq, hqid⟩ := List.any_eq_true.mp hany
      have hqid : q.1 = id := by simpa using hqid
      rw [List.filter_eq_nil_iff]
      intro p hp
      have : some p.1 = some id := by rw [← h1 p hp, h1 q hq, hqid]
      have : p.1 = id := by injection this
      simp [this]
    · calc (s.pending.filter (fun p => p.1 != id)).length
          ≤ s.pending.length := List.length_filter_le _ _
        _ ≤ 1 := h4
  · rw [fire, if_neg hany]
    exact ⟨h1, h2, h3, h4⟩

theorem setOnline_eq (s : Tracker)
    (h : ∀ p ∈ s.pending, s.timerRef = some p.1) :
    setOnline s = { s with status := .online, pending := [] } := by
  rw [setOnline, clearTimer_eq _ (by simpa using h)]

theorem setOffline_eq (s : Tracker)
    (h : ∀ p ∈ s.pending, s.timerRef = some p.1) :
    setOffline s = { s with status := .offline, pending := [] } := by
  rw [setOffline, clearTimer_eq _ (by simpa using h)]

theorem handleMessage_cases (frame : Option JValue) (s : Tracker) :
    handleMessage frame s = s ∨ handleMessage frame s = setOnline s
      ∨ handleMessage frame s = setOffline s := by
  cases frame with
  | none => exact Or.inl rfl
  | some data =>
    simp only [handleMessage]
    split_ifs <;> simp

theorem inv_handleMessage (s : Tracker) (frame : Option JValue)
    (h : TrackerInv s) : TrackerInv (handleMessage frame s) := by
  obtain ⟨h1, h2, h3, h4⟩ := h
  rcases handleMessage_cases frame s with he | he | he <;> rw [he]
  · exact ⟨h1, h2, h3, h4⟩
  · rw [setOnline_eq s h1]
    exact ⟨by simp, h2, Or.inl rfl, by simp⟩
  · rw [setOffline_eq s h1]
    exact ⟨by simp, h2, Or.inl rfl, by simp⟩

theorem inv_tstep (s : Tracker) (a : TAct) (h : TrackerInv s) :
    TrackerInv (tstep s a) := by
  cases a with
  | ask t => exact inv_ask s t h
  | fire id => exact inv_fire s id h
  | msg frame => exact inv_handleMessage s frame h

theorem trun_inv (acts : List TAct) : TrackerInv (trun acts) := by
  suffices h : ∀ (l : List TAct) (s : Tracker), TrackerInv s
      → TrackerInv (l.foldl tstep s) by
    exact h acts initTracker inv_init
  intro l
  induction l with
  | nil => exact fun s hs => hs
  | cons a l ih => exact fun s hs => ih (tstep s a) (inv_tstep s a hs)

theorem handleMessage_answerHi (s : Tracker) :
    handleMessage answerHiFrame s = setOnline s := rfl

theorem fire_pos (s : Tracker) (id : Nat)
    (h : s.pending.any (fun p => p.1 == id) = true) :
    fire id s
      = { s with
          status := PStatus.offline,
          pending := s.pending.filter (fun p => p.1 != id) } := by
  rw [fire, if_pos h]

theorem fire_neg (s : Tracker) (id : Nat)
    (h : s.pending.any (fun p => p.1 == id) = false) :
    fire id s = s := by
  rw [fire, if_neg (by simp [h])]

/-- Claim C3, evaluated at the failing input: two liveness checks whose
request windows overlap. Check A starts, check B starts before A's fetch
has settled (each start's `clearTimeout` finds no armed timer), then A's
continuation arms timer 1 and B's arms timer 2 — two timeouts are
outstanding at once (first conjunct), against the claimed invariant. An
affirmative answer then sets the device online, but its `clearTimeout`
reaches only the referenced timer 2 (second conjunct); the superseded
timer 1 is still armed and its expiry flips the newly-online device back
to offline (third conjunct), exactly what the claim says cannot happen. -/
theorem stale_timeout_race :
    (askArm 100 (askArm 0 (askStart (askStart initTracker)))).pending.length = 2
    ∧ (handleMessage answerHiFrame
        (askArm 100 (askArm 0 (askStart (askStart initTracker))))).status
        = PStatus.online
    ∧ (fire 1 (handleMessage answerHiFrame
        (askArm 100 (askArm 0 (askStart (askStart initTracker)))))).status
        = PStatus.offline := by
  refine ⟨?_, ?_, ?_⟩ <;> decide

/-- Claim C4: in a serialized execution (checks not overlapping, the
discipline of `TrackerInv`), whenever a timeout is still armed the status
is necessarily `checking` — so the expiry transition only ever leaves
`checking` — and its expiry makes the status `offline` and consumes the
timeout: firing it again changes nothing. The final conjunct grounds the
4000 ms deadline: a request whose fetch settles at time `t` arms its
timeout for `t + 4000`, and an armed timeout only exists while no
affirmative answer has been handled (any matching answer clears it). -/
theorem timeout_expiry (acts : List TAct) (id d t : Nat)
    (h : (id, d) ∈ (trun acts).pending) :
    (trun acts).status = PStatus.checking
    ∧ (fire id (trun acts)).status = PStatus.offline
    ∧ fire id (fire id (trun acts)) = fire id (trun acts)
    ∧ (askArm t (trun acts)).pending.getLast?
        = some ((trun acts).nextId, t + 4000) := by
  obtain ⟨h1, h2, h3, h4⟩ := trun_inv acts
  have hany : (trun acts).pending.any (fun p => p.1 == id) = true :=
    List.any_eq_true.mpr ⟨(id, d), h, by simp⟩
  have hchk : (trun acts).status = PStatus.checking := by
    rcases h3 with h3 | h3
    · rw [h3] at h
      exact absurd h (List.not_mem_nil _)
    · exact h3
  have hnone : ((trun acts).pending.filter (fun p => p.1 != id)).any
      (fun p => p.1 == id) = false := by
    rw [List.any_eq_false]
    intro p hp
    have := List.of_mem_filter hp
    simpa using this
  refine ⟨hchk, ?_, ?_, ?_⟩
  · rw [fire_pos _ _ hany]
  · rw [fire_pos _ _ hany]
    exact fire_neg _ id hnone
  · simp [askArm]

/-- Witness for C4 at a concrete input: one completed check, its timeout
(id 1, deadline 4000) armed; expiry at the deadline goes offline, a second
expiry of the same id is a no-op, and a request settling at t = 500 arms a
deadline of 4500. -/
theorem timeout_expiry_witness :
    (trun [TAct.ask 0]).status = PStatus.checking
    ∧ (fire 1 (trun [TAct.ask 0])).status = PStatus.offline
    ∧ fire 1 (fire 1 (trun [TAct.ask 0])) = fire 1 (trun [TAct.ask 0])
    ∧ (askArm 500 (trun [TAct.ask 0])).pending.getLast?
        = some ((trun [TAct.ask 0]).nextId, 500 + 4000) :=
  timeout_expiry [TAct.ask 0] 1 4000 500 (by decide)

/-- Claim C5: from any serialized execution, completing a liveness check
at time `t` arms exactly the one timeout with deadline `t + 4000` (first
conjunct); if the affirmative `answerInfo` event then arrives — at any
moment before that deadline, e.g. `t + 3999` — the status becomes
`online`, the armed timeout is cancelled (second and third conjuncts), and
no timer expiry whatsoever can change the state afterwards: the `t + 4000`
timeout no longer exists to fire (fourth conjunct). -/
theorem affirm_overrides_timeout (acts : List TAct) (t : Nat) :
    (ask t (trun acts)).pending = [((trun acts).nextId, t + 4000)]
    ∧ (handleMessage answerHiFrame (ask t (trun acts))).status = PStatus.online
    ∧ (handleMessage answerHiFrame (ask t (trun acts))).pending = []
    ∧ ∀ id, fire id (handleMessage answerHiFrame (ask t (trun acts)))
        = handleMessage answerHiFrame (ask t (trun acts)) := by
  obtain ⟨h1, h2, h3, h4⟩ := trun_inv acts
  rw [handleMessage_answerHi, ask_eq _ t h1]
  have honline : setOnline
      { status := PStatus.checking, timerRef := some (trun acts).nextId,
        pending := [((trun acts).nextId, t + 4000)],
        nextId := (trun acts).nextId + 1 }
      = { status := PStatus.online, timerRef := some (trun acts).nextId,
          pending := [],
          nextId := (trun acts).nextId + 1 } := by
    rw [setOnline_eq _ (by simp)]
  rw [honline]
  refine ⟨rfl, rfl, rfl, ?_⟩
  intro id
  rw [fire, if_neg (by simp)]

/-- Witness for C5 at a concrete input: the empty history and a check
completing at t = 0. -/
theorem affirm_overrides_timeout_witness :
    (ask 0 (trun [])).pending = [((trun []).nextId, 0 + 4000)]
    ∧ (handleMessage answerHiFrame (ask 0 (trun []))).status = PStatus.online
    ∧ (handleMessage answerHiFrame (ask 0 (trun []))).pending = []
    ∧ fire 1 (handleMessage answerHiFrame (ask 0 (trun [])))
        = handleMessage answerHiFrame (ask 0 (trun [])) :=
  ⟨(affirm_overrides_timeout [] 0).1, (affirm_overrides_timeout [] 0).2.1,
   (affirm_overrides_timeout [] 0).2.2.1, (affirm_overrides_timeout [] 0).2.2.2 1⟩

/-- Claim C8: payload classification is exact-string equality on the
normalized (trimmed, case-folded) form. "HI!", " hi! " and "hi!" are all
affirmative; "ByeBye", "byebye " and "OFFLINE" are all negative; strings
merely containing a token are neither (no substring or regex matching);
and in general any payload whose normalized form is not exactly "hi!" is
not affirmative, and one whose normalized form is neither "byebye" nor
"offline" is not negative. -/
theorem payload_normalization :
    (isHi (some (JValue.str "HI!")) = true
      ∧ isHi (some (JValue.str " hi! ")) = true
      ∧ isHi (some (JValue.str "hi!")) = true)
    ∧ (isBye (some (JValue.str "ByeBye")) = true
      ∧ isBye (some (JValue.str "byebye ")) = true
      ∧ isBye (some (JValue.str "OFFLINE")) = true)
    ∧ (isHi (some (JValue.str "oh hi! there")) = false
      ∧ isBye (some (JValue.str "xbyebyex")) = false)
    ∧ (∀ p, normalizePayload p ≠ "hi!" → isHi p = false)
    ∧ (∀ p, normalizePayload p ≠ "byebye" → normalizePayload p ≠ "offline" →
        isBye p = false) := by
  refine ⟨⟨by decide, by decide, by decide⟩, ⟨by decide, by decide, by decide⟩,
    ⟨by decide, by decide⟩, ?_, ?_⟩
  · intro p h
    simpa [isHi] using h
  · intro p h1 h2
    simp [isBye, h1, h2]

/-- Witness for C8 at a concrete input: a payload normalizing to "nope"
matches neither class. -/
theorem payload_normalization_witness :
    isHi (some (JValue.str " Nope ")) = false
      ∧ isBye (some (JValue.str " Nope ")) = false :=
  ⟨payload_normalization.2.2.2.1 _ (by decide),
   payload_normalization.2.2.2.2 _ (by decide) (by decide)⟩

/-- Modelled from the spec: the topic naming convention the tracker is
said to follow for liveness answers, `"<model>/<deviceId>/answerInfo"`. -/
def specAnswerTopic (model deviceId : String) : String :=
  model ++ "/" ++ deviceId ++ "/answerInfo"

/-- Modelled from the spec: the convention for unsolicited online/offline
announcements, `"<model>/<deviceId>/will"`. -/
def specWillTopic (model deviceId : String) : String :=
  model ++ "/" ++ deviceId ++ "/will"

/-- Modelled from the spec: the convention for the reserved last-will
offline signal, `"<model>/<deviceId>/status"`. -/
def specStatusTopic (model deviceId : String) : String :=
  model ++ "/" ++ deviceId ++ "/status"

/-- Claim C9, counterexample to the claim as stated: the hook hardcodes
the topics of model `mod_1x1`, device `d_000` in `handleMessage` while its
`deviceId` parameter is used only in the outbound request. For a tracker
configured with `deviceId = "d_001"`, the topic `"mod_1x1/d_000/answerInfo"`
belongs to another device — it is none of d_001's conventional topics
(first three conjuncts) — yet an event carrying it still changes this
tracker's state (fourth conjunct), since `handleMessage` does not depend
on the configured identifier at all. -/
theorem topic_convention_counterexample :
    specAnswerTopic "mod_1x1" "d_001" ≠ answerTopic
    ∧ specWillTopic "mod_1x1" "d_001" ≠ answerTopic
    ∧ specStatusTopic "mod_1x1" "d_001" ≠ answerTopic
    ∧ handleMessage answerHiFrame initTracker ≠ initTracker := by
  refine ⟨?_, ?_, ?_, ?_⟩ <;> decide

/-- Claim C9 as amended: the tracker matches the three fixed topics of
model `mod_1x1`, device `d_000` — which do follow the spec's
`"<model>/<deviceId>/<subpath>"` convention for that one device (first
conjunct) — regardless of the configured device identifier; the liveness
request does carry the configured identifier together with the fixed
"ask info" instruction (path `"askInfo"`, value `"hi"`, second conjunct);
and an event on any topic other than those three fixed ones never changes
the tracker's state (third conjunct). -/
theorem topic_convention_amended (frame : Option JValue) (s : Tracker)
    (dId : String) :
    (answerTopic = specAnswerTopic "mod_1x1" "d_000"
      ∧ willTopic = specWillTopic "mod_1x1" "d_000"
      ∧ statusTopic = specStatusTopic "mod_1x1" "d_000")
    ∧ askRequest dId = { deviceId := dId, path := "askInfo", value := "hi" }
    ∧ (topicIs (jgetOpt frame "topic") answerTopic = false →
       topicIs (jgetOpt frame "topic") willTopic = false →
       topicIs (jgetOpt frame "topic") statusTopic = false →
       handleMessage frame s = s) := by
  refine ⟨⟨by decide, by decide, by decide⟩, rfl, ?_⟩
  intro h1 h2 h3
  cases frame with
  | none => rfl
  | some data =>
    have e1 : topicIs (jget data "topic") answerTopic = false := h1
    have e2 : topicIs (jget data "topic") willTopic = false := h2
    have e3 : topicIs (jget data "topic") statusTopic = false := h3
    simp [handleMessage, e1, e2, e3]

/-- Witness for the amended C9 at a concrete input: an affirmative answer
on device d_001's own conventional answer topic leaves the tracker (which
only matches d_000's topics) unchanged. -/
theorem topic_convention_amended_witness :
    handleMessage (mkEvent "mod_1x1/d_001/answerInfo" (JValue.str "hi!"))
        initTracker
      = initTracker :=
  (topic_convention_amended
      (mkEvent "mod_1x1/d_001/answerInfo" (JValue.str "hi!")) initTracker
      "d_001").2.2 (by decide) (by decide) (by decide)

/-- Claim C6, evaluated at the failing input (mount, then unmount, then
the still-open socket closes). The effect cleanup captured the `ws` state
of the mount render, which is still `null`, so `ws.close()` never runs:
after teardown the socket is still open with its keep-alive interval still
armed — a dangling timer (second conjunct) — and when the socket later
closes, its `onclose` handler still schedules a reconnect, 3 seconds
later, despite the teardown (third conjunct). The claim's "clears the
keep-alive timer, closes the channel, and never schedules a reconnect
after teardown" fails on all three counts. -/
theorem teardown_releases_nothing :
    (teardown (openSocket 0 (mount initCM))).tornDown = true
    ∧ (teardown (openSocket 0 (mount initCM))).sockets[0]?
        = some { sockOpen := true, closed := false,
                 pingArmed := true, pingPeriod := 60000 }
    ∧ (socketClose 0 (teardown (openSocket 0 (mount initCM)))).pendingReconnects
        = [3000] := by
  refine ⟨?_, ?_, ?_⟩ <;> decide

/-- Claim C7: every close of a not-yet-closed socket clears that socket's
keep-alive interval and appends exactly one reconnect entry with the fixed
3000 ms delay (first two conjuncts) — the delay and the single entry are
the same whatever the state, so the policy repeats identically forever,
with no retry cap and no backoff growth; a fired reconnect consumes its
entry and runs `connect()` (third conjunct), and every `connect()` creates
the new socket with its keep-alive interval armed at the 60000 ms period
(fourth conjunct), so the keep-alive is armed again on each reopen. -/
theorem reconnect_loop (s : CM) (i : Nat) (sk : Socket)
    (hget : s.sockets[i]? = some sk) (hopen : sk.closed = false) :
    (socketClose i s).pendingReconnects = s.pendingReconnects ++ [3000]
    ∧ (socketClose i s).sockets[i]?
        = some { sk with sockOpen := false, closed := true, pingArmed := false }
    ∧ (∀ d rest, s.pendingReconnects = d :: rest →
        reconnectFire s = connect { s with pendingReconnects := rest })
    ∧ (connect s).sockets[s.sockets.length]?
        = some { sockOpen := false, closed := false,
                 pingArmed := true, pingPeriod := 60000 } := by
  have hlt : i < s.sockets.length := by
    by_contra hge
    rw [List.getElem?_eq_none (Nat.le_of_not_lt hge)] at hget
    exact Option.noConfusion hget
  have hclose : socketClose i s
      = { s with
          sockets := s.sockets.set i
            { sk with sockOpen := false, closed := true, pingArmed := false },
          pendingReconnects := s.pendingReconnects ++ [3000] } := by
    rw [socketClose]
    simp only [List.get?_eq_getElem?, hget]
    rw [if_neg (by simp [hopen])]
  refine ⟨by rw [hclose], ?_, ?_, ?_⟩
  · rw [hclose]
    exact List.getElem?_set_eq_of_lt _ (by simpa using hlt)
  · intro d rest hd
    rw [reconnectFire]
    simp only [hd]
  · simp [connect, List.getElem?_concat_length]

/-- Witness for C7 at a concrete input: the freshly mounted manager's
socket 0 closing schedules the one 3000 ms reconnect, and a reconnect's
`connect()` arms the keep-alive on the new socket. -/
theorem reconnect_loop_witness :
    (socketClose 0 (mount initCM)).pendingReconnects
        = (mount initCM).pendingReconnects ++ [3000]
    ∧ (connect (mount initCM)).sockets[(mount initCM).sockets.length]?
        = some { sockOpen := false, closed := false,
                 pingArmed := true, pingPeriod := 60000 } :=
  ⟨(reconnect_loop (mount initCM) 0
      { sockOpen := false, closed := false, pingArmed := true, pingPeriod := 60000 }
      (by decide) (by decide)).1,
   (reconnect_loop (mount initCM) 0
      { sockOpen := false, closed := false, pingArmed := true, pingPeriod := 60000 }
      (by decide) (by decide)).2.2.2⟩
